import Mathlib

/- Verification of the pytvmaze indexer client (lib/pytvmaze/pytvmaze_api.py):
   the exponential-backoff retry decorator, the bounded ShowContainer cache,
   the Show/Season/Episode nested metadata model with typed lookup errors,
   the episode-list and show-search schema normalizers, and the by-id lookup
   orchestration, shallowly embedded as executable Lean functions. -/

namespace PyTVMaze

/-- Python-level error kinds raised by the embedded code: the generic built-in
exceptions (TypeError, KeyError, ValueError, AttributeError) and the typed
tvmaze exception classes used by the model. -/
inductive PyErr where
  | typeError
  | keyError
  | valueError
  | attributeError
  | seasonNotFound
  | episodeNotFound
  | attributeNotFound
  | showIncomplete
deriving DecidableEq

/-- Python values as they appear in parsed JSON responses and entity fields:
None, integers, strings, lists and dicts (dicts as key-ordered association
lists, matching insertion order of Python dict literals). -/
inductive PVal where
  | noneV
  | intV (n : Int)
  | strV (s : String)
  | listV (xs : List PVal)
  | dictV (fields : List (String × PVal))

/-- `v is None` test (also `v != None`, negated). -/
def PVal.isNoneV : PVal → Bool
  | PVal.noneV => true
  | _ => false

/-- Python dict lookup returning an Option (the `in` test plus indexing). -/
def dLookup {K V : Type} [DecidableEq K] : List (K × V) → K → Option V
  | [], _ => Option.none
  | (k', v') :: rest, k => if k' = k then some v' else dLookup rest k

/-- Python dict item assignment: replace the value in place for an existing
key, append a new entry otherwise. -/
def dSet {K V : Type} [DecidableEq K] : List (K × V) → K → V → List (K × V)
  | [], k, v => [(k, v)]
  | (k', v') :: rest, k, v =>
    if k' = k then (k', v) :: rest else (k', v') :: dSet rest k v

/-- Python `del d[k]`: removes the entry, raising KeyError when absent. -/
def dDel {K V : Type} [DecidableEq K] : List (K × V) → K → Except PyErr (List (K × V))
  | [], _ => Except.error PyErr.keyError
  | (k', v') :: rest, k =>
    if k' = k then Except.ok rest
    else
      match dDel rest k with
      | Except.error e => Except.error e
      | Except.ok rest' => Except.ok ((k', v') :: rest')

theorem dLookup_dSet_self {K V : Type} [DecidableEq K] (st : List (K × V)) (k : K) (v : V) :
    dLookup (dSet st k v) k = some v := by
  induction st with
  | nil => simp [dSet, dLookup]
  | cons hd tl ih =>
    obtain ⟨k', v'⟩ := hd
    by_cases h : k' = k
    · simp [dSet, dLookup, h]
    · simp [dSet, dLookup, h, ih]

/- ## 1. Retry policy (`retry` decorator, pytvmaze_api.py lines 51-92) -/

/-- Outcome of one call to the wrapped operation: success, a failure matching
the decorator's ExceptionToCheck (recoverable), or a non-matching failure that
propagates immediately. -/
inductive OpRes (α : Type) where
  | ok (a : α)
  | recErr
  | fatalErr

/-- The loop body of `f_retry`: `mtries, mdelay = tries, delay; while mtries > 1:
try return f() except ExceptionToCheck: sleep(mdelay); mtries -= 1;
mdelay *= backoff` followed by one final unguarded `return f()`.
The operation is modelled as a function of the 0-based call index; the result
is (outcome, number of calls made, total time slept). -/
def retryGo {α : Type} (f : Nat → OpRes α) (backoff : Nat) :
    Nat → Nat → Nat → Nat → OpRes α × Nat × Nat
  | 0, _, calls, slept => (f calls, calls + 1, slept)
  | Nat.succ m, mdelay, calls, slept =>
    if m = 0 then (f calls, calls + 1, slept)
    else
      match f calls with
      | OpRes.ok a => (OpRes.ok a, calls + 1, slept)
      | OpRes.fatalErr => (OpRes.fatalErr, calls + 1, slept)
      | OpRes.recErr => retryGo f backoff m (mdelay * backoff) (calls + 1) (slept + mdelay)

/-- Running the retry-wrapped operation with the decorator's parameters. -/
def retryRun {α : Type} (tries delay backoff : Nat) (f : Nat → OpRes α) :
    OpRes α × Nat × Nat :=
  retryGo f backoff tries delay 0 0

/-- A concrete operation that fails recoverably on its first three calls and
succeeds on the fourth. -/
def c1op : Nat → OpRes Nat := fun n => if n < 3 then OpRes.recErr else OpRes.ok 7

/-- Claim C1 counterexample: with 4 attempts, initial delay 3 and backoff
multiplier 2, an operation failing recoverably on its first 3 calls and
succeeding on the 4th is called exactly 4 times and succeeds, but the total
time slept between attempts is 3 + 6 + 12 = 21 time-units (the delay doubles
after every retry), not the claimed 3 + 6 + 9 = 18. -/
theorem c1_counterexample :
    (retryRun 4 3 2 c1op).1 = OpRes.ok 7 ∧ (retryRun 4 3 2 c1op).2.1 = 4 ∧
    (retryRun 4 3 2 c1op).2.2 = 21 ∧ (retryRun 4 3 2 c1op).2.2 ≠ 18 :=
  ⟨rfl, rfl, rfl, by decide⟩

/-- Claim C1 (amended): for a retry policy with maximum attempts 4, initial
delay 3 and backoff multiplier 2 wrapping any operation that fails with a
recoverable error on its first 3 calls and succeeds on the 4th, the wrapped
call invokes the operation exactly 4 times, succeeds, and the total time
waited between attempts is 3 + 6 + 12 = 21 time-units. -/
theorem c1_amended_thm {α : Type} (f : Nat → OpRes α) (v : α)
    (h0 : f 0 = OpRes.recErr) (h1 : f 1 = OpRes.recErr)
    (h2 : f 2 = OpRes.recErr) (h3 : f 3 = OpRes.ok v) :
    retryRun 4 3 2 f = (OpRes.ok v, 4, 21) := by
  simp [retryRun, retryGo, h0, h1, h2, h3]

/-- Witness for the amended claim C1, at the concrete operation c1op. -/
theorem c1_witness : retryRun 4 3 2 c1op = (OpRes.ok 7, 4, 21) :=
  c1_amended_thm c1op 7 rfl rfl rfl rfl

/- ## 2. Bounded show cache (`ShowContainer`, pytvmaze_api.py lines 95-115) -/

/-- The ShowContainer state: the retention-order `_stack` of inserted keys,
the `_lastgc` sweep timestamp, and the underlying dict of shows. Keys are
show ids (naturals); time is in abstract time-units. -/
structure ShowContainer (V : Type) where
  stack : List Nat
  lastgc : Nat
  store : List (Nat × V)

/-- `ShowContainer.__init__`: empty stack and dict, `_lastgc = time.time()`. -/
def scInit {V : Type} (t0 : Nat) : ShowContainer V :=
  { stack := [], lastgc := t0, store := [] }

/-- The sweep's deletion loop `for o in self._stack[:-100]: del self[o]`,
applied left to right. -/
def delKeys {V : Type} : List (Nat × V) → List Nat → Except PyErr (List (Nat × V))
  | st, [] => Except.ok st
  | st, k :: ks =>
    match dDel st k with
    | Except.error e => Except.error e
    | Except.ok st' => delKeys st' ks

/-- `ShowContainer.__setitem__(key, value)` at current time `now`: append the
key to the stack; if more than 20 time-units elapsed since the last sweep,
delete every key in the stack prefix `_stack[:-100]` from the dict, keep only
the last 100 stack entries, and reset the sweep timestamp; finally perform the
dict assignment. -/
def scSetItem {V : Type} (now k : Nat) (v : V) (c : ShowContainer V) :
    Except PyErr (ShowContainer V) :=
  let stack1 := c.stack ++ [k]
  if now - c.lastgc > 20 then
    match delKeys c.store (stack1.take (stack1.length - 100)) with
    | Except.error e => Except.error e
    | Except.ok store1 =>
      Except.ok { stack := stack1.drop (stack1.length - 100), lastgc := now,
                  store := dSet store1 k v }
  else
    Except.ok { stack := stack1, lastgc := c.lastgc, store := dSet c.store k v }

/-- Insert a list of keys in order, all at the same time instant. -/
def runInserts (now : Nat) : List Nat → ShowContainer Unit → Except PyErr (ShowContainer Unit)
  | [], c => Except.ok c
  | k :: ks, c =>
    match scSetItem now k () c with
    | Except.error e => Except.error e
    | Except.ok c' => runInserts now ks c'

/-- Scenario A of claim C4: 150 distinct keys inserted with no time elapsing. -/
def scenarioA : Except PyErr (ShowContainer Unit) :=
  runInserts 0 (List.range 150) (scInit 0)

/-- Scenario B of claim C4: 120 distinct keys inserted with no time elapsing,
then a 121st distinct key inserted after 21 time-units, triggering the sweep.
This is the cache state immediately after that sweep. -/
def scenarioB : Except PyErr (ShowContainer Unit) :=
  match runInserts 0 (List.range 120) (scInit 0) with
  | Except.error e => Except.error e
  | Except.ok c => scSetItem 21 120 () c

/-- Evaluate a boolean property on a successful result; failure yields false. -/
def exOk {α : Type} (p : α → Bool) : Except PyErr α → Bool
  | Except.ok a => p a
  | Except.error _ => false

/-- All of the first `n` keys are present in the cache dict. -/
def allPresent (c : ShowContainer Unit) (n : Nat) : Bool :=
  (List.range n).all (fun k => (dLookup c.store k).isSome)

set_option maxRecDepth 100000 in
/-- Claim C4: with sweep interval 20 and retention size 100, inserting 150
distinct keys with no time elapsing leaves all 150 keys present (the sweep
never triggers), and inserting distinct keys with a sweep triggering at the
insertion after key 120 leaves at most 100 keys present immediately after
that sweep. -/
theorem c4_cache_thm :
    exOk (fun c => allPresent c 150 && c.store.length == 150) scenarioA = true ∧
    exOk (fun c => decide (c.store.length ≤ 100)) scenarioB = true :=
  ⟨by decide, by decide⟩

/-- The claim C5 run, middle state: keys 0..119 inserted at time 0, then the
already-present key 0 re-inserted at time 0 (no sweep; its stack entry is now
duplicated, with the fresh entry among the most recent 100). -/
def scenarioC_mid : Except PyErr (ShowContainer Unit) :=
  match runInserts 0 (List.range 120) (scInit 0) with
  | Except.error e => Except.error e
  | Except.ok c => scSetItem 0 0 () c

/-- The claim C5 run, final state: one more distinct key inserted after 21
time-units, triggering the eviction sweep. -/
def scenarioC : Except PyErr (ShowContainer Unit) :=
  match scenarioC_mid with
  | Except.error e => Except.error e
  | Except.ok c => scSetItem 21 120 () c

set_option maxRecDepth 100000 in
/-- Claim C5 evaluation: re-inserting the already-present key 0 appends a
duplicate retention-order entry (stack count 2, no deduplication) — but after
the subsequent sweep, although key 0's re-insertion entry is among the kept
most-recent-100 stack entries (`contains` holds), the key has been deleted
from the cache dict: the sweep's deletion loop removes every key occurring in
the evicted stack prefix, including keys that also occur in the kept suffix.
This contradicts the protection-from-eviction part of the claim. -/
theorem c5_eval_thm :
    exOk (fun c => c.stack.count 0 == 2) scenarioC_mid = true ∧
    exOk (fun c => c.stack.contains 0 && !(dLookup c.store 0).isSome) scenarioC = true :=
  ⟨by decide, by decide⟩

/- ## 3. Nested metadata model (Show/Season/Episode, pytvmaze_api.py lines 118-329) -/

/-- A Python dict key as used by the entity lookup namespace: an integer
(season/episode number) or a string (digit-string or attribute name). -/
inductive PyKey where
  | intK (n : Int)
  | strK (s : String)
deriving DecidableEq

/-- Python `str.isdigit()`: true exactly for non-empty all-digit strings
(ASCII digits; exotic unicode digit classes are not modelled). -/
def pyIsDigit (s : String) : Bool :=
  !s.isEmpty && s.toList.all Char.isDigit

/-- An Episode: a dict of field name → value (plus a non-owning back-reference
to its season, irrelevant to lookup and omitted). -/
structure EpisodeM where
  fields : List (String × PVal)

/-- A Season: a dict of episode number → Episode (back-reference omitted). -/
structure SeasonM where
  episodes : List (PyKey × EpisodeM)

/-- A Show: the season dict plus the separate `data` dict of scalar fields. -/
structure ShowM where
  seasons : List (PyKey × SeasonM)
  data : List (PyKey × PVal)

/-- `Show.__getitem__`: a key present in the season dict returns the Season; a
key present in `self.data` returns the scalar value; otherwise an int key or a
digit-string key raises tvmaze_seasonnotfound, and any other string key raises
tvmaze_attributenotfound. -/
def showGetItem (sh : ShowM) (key : PyKey) : Except PyErr (SeasonM ⊕ PVal) :=
  match dLookup sh.seasons key with
  | some ssn => Except.ok (Sum.inl ssn)
  | Option.none =>
    match dLookup sh.data key with
    | some v => Except.ok (Sum.inr v)
    | Option.none =>
      match key with
      | PyKey.intK _ => Except.error PyErr.seasonNotFound
      | PyKey.strK s =>
        if pyIsDigit s then Except.error PyErr.seasonNotFound
        else Except.error PyErr.attributeNotFound

/-- `Season.__getitem__`: any key absent from the episode dict raises
tvmaze_episodenotfound; a present key returns the Episode. -/
def seasonGetItem (ssn : SeasonM) (episode_number : PyKey) : Except PyErr EpisodeM :=
  match dLookup ssn.episodes episode_number with
  | Option.none => Except.error PyErr.episodeNotFound
  | some ep => Except.ok ep

/-- `Episode.__getitem__`: a key absent from the field dict turns the KeyError
into tvmaze_attributenotfound. -/
def episodeGetItem (ep : EpisodeM) (key : String) : Except PyErr PVal :=
  match dLookup ep.fields key with
  | some v => Except.ok v
  | Option.none => Except.error PyErr.attributeNotFound

/-- `unicode(v)` as used on scalar entity field values; the reprs of container
values are not modelled faithfully (entity fields hold scalars). -/
def pyStr : PVal → String
  | PVal.noneV => "None"
  | PVal.intV n => toString n
  | PVal.strV s => s
  | PVal.listV _ => "<listrepr>"
  | PVal.dictV _ => "<dictrepr>"

/-- `hay.find(needle) > -1`: substring containment on character lists. -/
def strFindB (needle : String) : List Char → Bool
  | [] => needle.toList.isPrefixOf ([] : List Char)
  | c :: rest => needle.toList.isPrefixOf (c :: rest) || strFindB needle rest

/-- `hay.find(needle) > -1` on strings. -/
def strContains (hay needle : String) : Bool :=
  strFindB needle hay.toList

/-- The loop of `Episode.search`: iterate the field items; lower-case key and
stringified value; skip fields whose lowered key differs from the requested
key restriction; return the episode itself on the first substring match. -/
def epSearchFields (ep : EpisodeM) (tl : String) (keyr : Option String) :
    List (String × PVal) → Option EpisodeM
  | [] => Option.none
  | (k, v) :: rest =>
    let kl := k.toLower
    let vl := (pyStr v).toLower
    match keyr with
    | some kr =>
      if kl = kr then (if strContains vl tl then some ep else epSearchFields ep tl keyr rest)
      else epSearchFields ep tl keyr rest
    | Option.none =>
      if strContains vl tl then some ep else epSearchFields ep tl keyr rest

/-- `Episode.search(term, key)`: a missing/None term raises a plain TypeError
("must supply string to search for"); otherwise the lower-cased term is
searched through the (optionally key-restricted) field values, returning the
episode on a match and nothing otherwise. -/
def epSearch (ep : EpisodeM) (term : Option PVal) (keyr : Option String) :
    Except PyErr (Option EpisodeM) :=
  match term with
  | Option.none => Except.error PyErr.typeError
  | some t => Except.ok (epSearchFields ep ((pyStr t).toLower) keyr ep.fields)

/-- Claim C2 counterexample: indexing a Season (an empty one) with the named
attribute "imdb" raises tvmaze_episodenotfound, not tvmaze_attributenotfound —
`Season.__getitem__` raises Episode-not-found for every absent key, attribute
names included, so "indexing any entity with an absent named attribute raises
Attribute-not-found" fails for Seasons. -/
theorem c2_counterexample :
    seasonGetItem ⟨[]⟩ (PyKey.strK "imdb") = Except.error PyErr.episodeNotFound ∧
    PyErr.episodeNotFound ≠ PyErr.attributeNotFound :=
  ⟨rfl, by decide⟩

/-- Claim C2 (amended): typed lookup errors of the metadata model. Indexing a
Show with a season number absent from its season collection (and, per the
data-model invariant, absent from the scalar side-table) raises
Season-not-found; indexing a Season with any key absent from its episode
collection — episode numbers and attribute names alike — raises
Episode-not-found; indexing a Show with a non-digit named attribute absent
from both namespaces, or an Episode with a named attribute absent from its
field storage, raises Attribute-not-found. In each case exactly one typed
error is raised, never a generic one. -/
theorem c2_amended_thm :
    (∀ (sh : ShowM) (n : Int),
      dLookup sh.seasons (PyKey.intK n) = Option.none →
      dLookup sh.data (PyKey.intK n) = Option.none →
      showGetItem sh (PyKey.intK n) = Except.error PyErr.seasonNotFound) ∧
    (∀ (ssn : SeasonM) (k : PyKey),
      dLookup ssn.episodes k = Option.none →
      seasonGetItem ssn k = Except.error PyErr.episodeNotFound) ∧
    (∀ (sh : ShowM) (a : String),
      pyIsDigit a = false →
      dLookup sh.seasons (PyKey.strK a) = Option.none →
      dLookup sh.data (PyKey.strK a) = Option.none →
      showGetItem sh (PyKey.strK a) = Except.error PyErr.attributeNotFound) ∧
    (∀ (ep : EpisodeM) (a : String),
      dLookup ep.fields a = Option.none →
      episodeGetItem ep a = Except.error PyErr.attributeNotFound) := by
  refine ⟨?_, ?_, ?_, ?_⟩
  · intro sh n h1 h2
    simp [showGetItem, h1, h2]
  · intro ssn k h
    simp [seasonGetItem, h]
  · intro sh a hd h1 h2
    simp [showGetItem, h1, h2, hd]
  · intro ep a h
    simp [episodeGetItem, h]

/-- Witness for the amended claim C2, on empty entities. -/
theorem c2_witness :
    showGetItem ⟨[], []⟩ (PyKey.intK 3) = Except.error PyErr.seasonNotFound ∧
    seasonGetItem ⟨[]⟩ (PyKey.intK 4) = Except.error PyErr.episodeNotFound ∧
    showGetItem ⟨[], []⟩ (PyKey.strK "overview") = Except.error PyErr.attributeNotFound ∧
    episodeGetItem ⟨[]⟩ "episodename" = Except.error PyErr.attributeNotFound :=
  ⟨c2_amended_thm.1 ⟨[], []⟩ 3 rfl rfl,
   c2_amended_thm.2.1 ⟨[]⟩ (PyKey.intK 4) rfl,
   c2_amended_thm.2.2.1 ⟨[], []⟩ "overview" rfl rfl rfl,
   c2_amended_thm.2.2.2 ⟨[]⟩ "episodename" rfl⟩

/-- Claim C9: calling `Episode.search` with no search term (term omitted or
None) raises a plain TypeError, for every episode and every key restriction,
and TypeError is none of the three typed indexer errors. -/
theorem c9_search_none :
    (∀ (ep : EpisodeM) (keyr : Option String),
      epSearch ep Option.none keyr = Except.error PyErr.typeError) ∧
    PyErr.typeError ≠ PyErr.seasonNotFound ∧
    PyErr.typeError ≠ PyErr.episodeNotFound ∧
    PyErr.typeError ≠ PyErr.attributeNotFound :=
  ⟨fun _ _ => rfl, by decide, by decide, by decide⟩

/-- Claim C10: `Show.__getitem__` classifies digit-string keys as structural
season lookups — a string key of digits present in neither the season
collection nor the scalar field storage raises Season-not-found, while a
non-digit string key absent from both raises Attribute-not-found. -/
theorem c10_digit_keys :
    (∀ (sh : ShowM) (s : String),
      pyIsDigit s = true →
      dLookup sh.seasons (PyKey.strK s) = Option.none →
      dLookup sh.data (PyKey.strK s) = Option.none →
      showGetItem sh (PyKey.strK s) = Except.error PyErr.seasonNotFound) ∧
    (∀ (sh : ShowM) (s : String),
      pyIsDigit s = false →
      dLookup sh.seasons (PyKey.strK s) = Option.none →
      dLookup sh.data (PyKey.strK s) = Option.none →
      showGetItem sh (PyKey.strK s) = Except.error PyErr.attributeNotFound) := by
  constructor
  · intro sh s hd h1 h2
    simp [showGetItem, h1, h2, hd]
  · intro sh s hd h1 h2
    simp [showGetItem, h1, h2, hd]

/-- Witness for claim C10, on an empty show with keys "42" and "genre". -/
theorem c10_witness :
    showGetItem ⟨[], []⟩ (PyKey.strK "42") = Except.error PyErr.seasonNotFound ∧
    showGetItem ⟨[], []⟩ (PyKey.strK "genre") = Except.error PyErr.attributeNotFound :=
  ⟨c10_digit_keys.1 ⟨[], []⟩ "42" rfl rfl rfl,
   c10_digit_keys.2 ⟨[], []⟩ "genre" rfl rfl rfl⟩

/- ## 4. Schema normalizer and episode ingestion
      (TVmaze.episode_list lines 730-762, TVmaze._getShowData lines 924-1013) -/

/-- Python dict indexing `d[k]` on a string-keyed dict: KeyError when absent. -/
def dictGetS (d : List (String × PVal)) (k : String) : Except PyErr PVal :=
  match dLookup d k with
  | some v => Except.ok v
  | Option.none => Except.error PyErr.keyError

/-- The numeric value of a non-empty all-digit character list. -/
def digitsVal (cs : List Char) : Option Nat :=
  if cs.isEmpty then Option.none
  else if cs.all Char.isDigit then
    some (cs.foldl (fun acc c => acc * 10 + (c.toNat - 48)) 0)
  else Option.none

/-- `int(float(s))` for plain decimal literals: optional sign, digits, and an
optional fractional part that truncation toward zero discards (upstream data
contains values like "1.0"). Exponent forms are not modelled; a non-numeric
string is a ValueError, reported as Option.none here. -/
def intFloatStr (s : String) : Option Int :=
  let (neg, body) :=
    match s.trim.toList with
    | '-' :: r => (true, r)
    | '+' :: r => (false, r)
    | r => (false, r)
  let ipart := body.takeWhile (fun c => c != '.')
  let rest := body.dropWhile (fun c => c != '.')
  let fpartOpt : Option (List Char) :=
    match rest with
    | [] => some []
    | '.' :: r => some r
    | _ => Option.none
  match fpartOpt with
  | Option.none => Option.none
  | some fr =>
    if !fr.isEmpty && !(fr.all Char.isDigit) then Option.none
    else
      match digitsVal ipart with
      | some n => some (if neg then -(n : Int) else (n : Int))
      | Option.none =>
        if ipart.isEmpty && !fr.isEmpty then some 0 else Option.none

/-- `int(float(v))` on a field value: integers pass through, numeric strings
are coerced through the float parse and truncated, None is a TypeError. -/
def pyIntFloat : PVal → Except PyErr Int
  | PVal.intV n => Except.ok n
  | PVal.strV s =>
    match intFloatStr s with
    | some n => Except.ok n
    | Option.none => Except.error PyErr.valueError
  | _ => Except.error PyErr.typeError

/-- The (season, episode) resolution of `TVmaze._getShowData` (lines 981-1000):
with dvdorder configured, `use_dvd = cur_ep['dvd_season'] != None and
cur_ep['dvd_episodenumber'] != None` (short-circuit: the second lookup is
skipped when the first is None, and an absent key raises KeyError); the
effective pair is the dvd pair when use_dvd holds and the broadcast pair
`cur_ep['seasonnumber'], cur_ep['episodenumber']` otherwise; a None season or
episode number skips the episode (Option.none), and the numbers are coerced
via `int(float(.))`. -/
def resolveEpNumber (dvdorder : Bool) (cur_ep : List (String × PVal)) :
    Except PyErr (Option (Int × Int)) :=
  match (if dvdorder then
          match dictGetS cur_ep "dvd_season" with
          | Except.error e => Except.error e
          | Except.ok ds =>
            if ds.isNoneV then Except.ok false
            else
              match dictGetS cur_ep "dvd_episodenumber" with
              | Except.error e => Except.error e
              | Except.ok de => Except.ok (!de.isNoneV)
         else Except.ok false : Except PyErr Bool) with
  | Except.error e => Except.error e
  | Except.ok use_dvd =>
    match (if use_dvd then
            match dictGetS cur_ep "dvd_season", dictGetS cur_ep "dvd_episodenumber" with
            | Except.error e, _ => Except.error e
            | _, Except.error e => Except.error e
            | Except.ok a, Except.ok b => Except.ok (a, b)
           else
            match dictGetS cur_ep "seasonnumber", dictGetS cur_ep "episodenumber" with
            | Except.error e, _ => Except.error e
            | _, Except.error e => Except.error e
            | Except.ok a, Except.ok b => Except.ok (a, b) : Except PyErr (PVal × PVal)) with
    | Except.error e => Except.error e
    | Except.ok (seasnum, epno) =>
      if seasnum.isNoneV || epno.isNoneV then Except.ok Option.none
      else
        match pyIntFloat seasnum, pyIntFloat epno with
        | Except.error e, _ => Except.error e
        | _, Except.error e => Except.error e
        | Except.ok a, Except.ok b => Except.ok (some (a, b))

/-- The episode record of claim C3: disc-order pair (2,5) present and
non-null, broadcast pair (1,20). -/
def epFull : List (String × PVal) :=
  [("dvd_season", PVal.intV 2), ("dvd_episodenumber", PVal.intV 5),
   ("seasonnumber", PVal.intV 1), ("episodenumber", PVal.intV 20)]

/-- The same record with both disc-order fields present but null. -/
def epNullDvd : List (String × PVal) :=
  [("dvd_season", PVal.noneV), ("dvd_episodenumber", PVal.noneV),
   ("seasonnumber", PVal.intV 1), ("episodenumber", PVal.intV 20)]

/-- The same record with the disc-order fields absent altogether. -/
def epNoDvd : List (String × PVal) :=
  [("seasonnumber", PVal.intV 1), ("episodenumber", PVal.intV 20)]

/-- Claim C3 counterexample: with disc-order mode enabled and the disc-order
fields absent from the record (not merely null), the resolution raises a
KeyError from `cur_ep['dvd_season']` instead of falling back to the broadcast
pair (1,20) — the "absent" half of the claimed present-and-non-null iff
fails. -/
theorem c3_counterexample :
    resolveEpNumber true epNoDvd = Except.error PyErr.keyError ∧
    (Except.error PyErr.keyError :
      Except PyErr (Option (Int × Int))) ≠ Except.ok (some ((1 : Int), (20 : Int))) :=
  ⟨rfl, fun h => Except.noConfusion h⟩

/-- Claim C3 (amended): with disc-order mode enabled, an episode whose
disc-order fields are present resolves to the disc-order pair exactly when
both are non-null, and resolves as in broadcast mode when either is null;
when a disc-order field is absent the lookup raises KeyError instead of
falling back. Concretely, for disc pair (2,5) and broadcast pair (1,20):
disc-order mode resolves to (2,5); disabled resolves to (1,20); and null
disc-order fields with the mode enabled fall back to (1,20). -/
theorem c3_amended_thm :
    resolveEpNumber true epFull = Except.ok (some ((2 : Int), (5 : Int))) ∧
    resolveEpNumber false epFull = Except.ok (some ((1 : Int), (20 : Int))) ∧
    resolveEpNumber true epNullDvd = Except.ok (some ((1 : Int), (20 : Int))) ∧
    (∀ (ep : List (String × PVal)) (a b : Int),
      dictGetS ep "dvd_season" = Except.ok (PVal.intV a) →
      dictGetS ep "dvd_episodenumber" = Except.ok (PVal.intV b) →
      resolveEpNumber true ep = Except.ok (some (a, b))) ∧
    (∀ ep : List (String × PVal),
      dictGetS ep "dvd_season" = Except.ok PVal.noneV →
      resolveEpNumber true ep = resolveEpNumber false ep) ∧
    (∀ (ep : List (String × PVal)) (a : Int),
      dictGetS ep "dvd_season" = Except.ok (PVal.intV a) →
      dictGetS ep "dvd_episodenumber" = Except.ok PVal.noneV →
      resolveEpNumber true ep = resolveEpNumber false ep) := by
  refine ⟨rfl, rfl, rfl, ?_, ?_, ?_⟩
  · intro ep a b h1 h2
    simp [resolveEpNumber, h1, h2, PVal.isNoneV, pyIntFloat]
  · intro ep h
    simp [resolveEpNumber, h, PVal.isNoneV]
  · intro ep a h1 h2
    simp [resolveEpNumber, h1, h2, PVal.isNoneV]

/-- Witness for the amended claim C3, instantiating its generic disc-order
conjunct at the concrete record epFull. -/
theorem c3_witness : resolveEpNumber true epFull = Except.ok (some ((2 : Int), (5 : Int))) :=
  c3_amended_thm.2.2.2.1 epFull 2 5 rfl rfl

/-- The fixed episode field-name table of `TVmaze.episode_list.map_data`
(`name_map.get(key) or key`: unmapped fields pass through). -/
def epNameMap (k : String) : String :=
  if k == "id" then "id"
  else if k == "image" then "fanart"
  else if k == "epnum" then "absolute_number"
  else if k == "name" then "episodename"
  else if k == "airdate" then "firstaired"
  else if k == "screencap" then "filename"
  else if k == "number" then "episodenumber"
  else if k == "season" then "seasonnumber"
  else k

/-- One iteration of `map_data`: rename every field of an episode object
through the name table into a fresh dict; `.iteritems()` on a non-dict entry
raises AttributeError. -/
def mapEpisodeRec (e : PVal) : Except PyErr (List (String × PVal)) :=
  match e with
  | PVal.dictV fs =>
    Except.ok (fs.foldl (fun acc kv => dSet acc (epNameMap kv.1) kv.2) [])
  | _ => Except.error PyErr.attributeError

/-- `map_data` over the upstream episode array. -/
def mapEpisodes : List PVal → Except PyErr (List (List (String × PVal)))
  | [] => Except.ok []
  | e :: rest =>
    match mapEpisodeRec e with
    | Except.error err => Except.error err
    | Except.ok d =>
      match mapEpisodes rest with
      | Except.error err => Except.error err
      | Except.ok ds => Except.ok (d :: ds)

/-- `TVmaze.episode_list(maze_id)`: the upstream response body is the parsed
JSON of GET /shows/id/episodes (an array of episode objects), or None when the
body was not valid JSON (`_loadUrl` then returns a dict whose "data" entry is
None); `map_data(results['data'])` iterates it with `enumerate`, so a None
body raises TypeError, and the result is always the one-key mapping
OrderedDict with "episode" holding the renamed episode list. -/
def episode_list (upstream : Option (List PVal)) :
    Except PyErr (List (String × List (List (String × PVal)))) :=
  match upstream with
  | Option.none => Except.error PyErr.typeError
  | some eps =>
    match mapEpisodes eps with
    | Except.error e => Except.error e
    | Except.ok mapped => Except.ok [("episode", mapped)]

/-- `TVmaze._cleanData`: on strings, replace the HTML ampersand entity and
strip surrounding whitespace; other values pass through. -/
def cleanData (v : PVal) : PVal :=
  match v with
  | PVal.strV s => PVal.strV ((s.replace "&amp;" "&").trim)
  | other => other

/-- The per-field loop of `_getShowData`'s episode ingestion: keys are
lower-cased; non-None values are cleaned, except that a non-None "filename"
value is formatted with `self.config['url_artworkPrefix']`, a config entry
that is never created (it is commented out in `__init__`), so that path
raises KeyError. The writes land in the episode's field dict in order. -/
def cleanEpInto : List (String × PVal) → List (String × PVal) → Except PyErr (List (String × PVal))
  | acc, [] => Except.ok acc
  | acc, (k, v) :: rest =>
    let kl := k.toLower
    if v.isNoneV then cleanEpInto (dSet acc kl v) rest
    else if kl == "filename" then Except.error PyErr.keyError
    else cleanEpInto (dSet acc kl (cleanData v)) rest

/-- The episode loop of `_getShowData`: resolve each record's (season,
episode) pair per `resolveEpNumber`, skip records with a None pair (logged,
not inserted), and otherwise insert the cleaned fields at that position via
`_setItem`. The result lists the inserted (pair, fields) in order. -/
def ingestEpisodes (dvdorder : Bool) :
    List (List (String × PVal)) → Except PyErr (List ((Int × Int) × List (String × PVal)))
  | [] => Except.ok []
  | cur_ep :: rest =>
    match resolveEpNumber dvdorder cur_ep with
    | Except.error e => Except.error e
    | Except.ok Option.none => ingestEpisodes dvdorder rest
    | Except.ok (some se) =>
      match cleanEpInto [] cur_ep with
      | Except.error e => Except.error e
      | Except.ok fields =>
        match ingestEpisodes dvdorder rest with
        | Except.error e => Except.error e
        | Except.ok tail => Except.ok ((se, fields) :: tail)

/-- The episode phase of `TVmaze._getShowData` when episode info is requested
(lines 966-1013): fetch the episode list; `if not epsEt` raise
tvmaze_showincomplete; `if 'episode' not in epsEt` return False silently;
otherwise ingest every episode (`episodes` is already a list here) and return
True together with the inserted tree entries. -/
def getShowDataEps (dvdorder : Bool) (upstream : Option (List PVal)) :
    Except PyErr (Bool × List ((Int × Int) × List (String × PVal))) :=
  match episode_list upstream with
  | Except.error e => Except.error e
  | Except.ok epsEt =>
    if epsEt.isEmpty then Except.error PyErr.showIncomplete
    else
      match dLookup epsEt "episode" with
      | Option.none => Except.ok (false, [])
      | some episodes =>
        match ingestEpisodes dvdorder episodes with
        | Except.error e => Except.error e
        | Except.ok l => Except.ok (true, l)

/-- Claim C7 counterexample: with episode loading requested and a structurally
absent upstream episode-list body, `_getShowData` propagates the generic
TypeError raised inside `episode_list`'s mapping, not the typed
tvmaze_showincomplete error. -/
theorem c7_counterexample :
    getShowDataEps false Option.none = Except.error PyErr.typeError ∧
    (Except.error PyErr.typeError :
        Except PyErr (Bool × List ((Int × Int) × List (String × PVal)))) ≠
      Except.error PyErr.showIncomplete := by
  refine ⟨rfl, fun h => ?_⟩
  exact absurd (Except.error.inj h) (by decide)

/-- Claim C7 (amended): when episode loading is requested and the upstream
episode-list response is structurally absent (no parseable JSON body), the
operation raises a generic TypeError from the episode-list mapping rather
than the typed Show-incomplete error; the Show-incomplete branch guards an
empty episode-list result that `episode_list` never produces — every
successful `episode_list` result is non-empty and contains the "episode"
collection. -/
theorem c7_amended_thm :
    (∀ d : Bool, getShowDataEps d Option.none = Except.error PyErr.typeError) ∧
    (∀ (ups : List PVal) (l : List (String × List (List (String × PVal)))),
      episode_list (some ups) = Except.ok l →
      l.isEmpty = false ∧ (dLookup l "episode").isSome = true) := by
  constructor
  · intro d
    rfl
  · intro ups l h
    simp only [episode_list] at h
    cases hm : mapEpisodes ups with
    | error e => simp [hm] at h
    | ok mapped =>
      simp only [hm, Except.ok.injEq] at h
      subst h
      exact ⟨rfl, rfl⟩

/-- Witness for the amended claim C7, at the empty upstream episode array. -/
theorem c7_witness :
    ([("episode", ([] : List (List (String × PVal))))]).isEmpty = false ∧
    (dLookup [("episode", ([] : List (List (String × PVal))))] "episode").isSome = true :=
  c7_amended_thm.2 [] [("episode", [])] rfl

/- ## 5. Show search (`TVmaze.search` and its map_data, lines 641-692) -/

/-- The fixed show field-name table shared by `search.map_data`. -/
def showNameMap (k : String) : String :=
  if k == "id" then "id"
  else if k == "name" then "seriesname"
  else if k == "summary" then "overview"
  else if k == "premiered" then "firstaired"
  else if k == "genres" then "genre"
  else if k == "image" then "fanart"
  else if k == "url" then "show_url"
  else k

/-- Python truthiness of a value (`if value.get('medium')`). -/
def pyTruthy : PVal → Bool
  | PVal.noneV => false
  | PVal.intV n => decide (n ≠ 0)
  | PVal.strV s => !s.isEmpty
  | PVal.listV xs => !xs.isEmpty
  | PVal.dictV fs => !fs.isEmpty

/-- `d.get(k)` result with the None default. -/
def pvGetD (fs : List (String × PVal)) (k : String) : PVal :=
  match dLookup fs k with
  | some v => v
  | Option.none => PVal.noneV

/-- One field of a search result through `map_data`'s per-field try/except:
scalar (string/int) values are renamed through the table; for non-scalar
values the special cases apply — a "schedule" dict assigns airs_time and then
raises AttributeError at `key.get('days')` (a string has no .get), which the
bare except swallows after the airs_time assignment persisted; a "network"
dict assigns its name; an "image" dict with a truthy "medium" assigns the
medium/original urls; `.get` on a non-dict raises and is swallowed with no
assignment; every other non-scalar field is skipped. -/
def mapSearchField (nd : List (String × PVal)) (k : String) (v : PVal) :
    List (String × PVal) :=
  match v with
  | PVal.intV _ => dSet nd (showNameMap k) v
  | PVal.strV _ => dSet nd (showNameMap k) v
  | _ =>
    if k == "schedule" then
      match v with
      | PVal.dictV fs => dSet nd "airs_time" (pvGetD fs "time")
      | _ => nd
    else if k == "network" then
      match v with
      | PVal.dictV fs => dSet nd "network" (pvGetD fs "name")
      | _ => nd
    else if k == "image" then
      match v with
      | PVal.dictV fs =>
        if pyTruthy (pvGetD fs "medium") then
          dSet (dSet nd "image_medium" (pvGetD fs "medium"))
            "image_original" (pvGetD fs "original")
        else nd
      | _ => nd
    else nd

/-- One search wrapper through `map_data`: `series['show']` (TypeError on a
non-dict wrapper, KeyError when the key is missing), then the per-field
mapping over the show object's items (AttributeError on a non-dict show). -/
def mapSearchShow (series : PVal) : Except PyErr (List (String × PVal)) :=
  match series with
  | PVal.dictV ws =>
    match dLookup ws "show" with
    | Option.none => Except.error PyErr.keyError
    | some showObj =>
      match showObj with
      | PVal.dictV fs =>
        Except.ok (fs.foldl (fun nd kv => mapSearchField nd kv.1 kv.2) [])
      | _ => Except.error PyErr.attributeError
  | _ => Except.error PyErr.typeError

/-- `map_data`'s outer loop over the upstream search array. -/
def tvSearchShows : List PVal → Except PyErr (List (List (String × PVal)))
  | [] => Except.ok []
  | s :: rest =>
    match mapSearchShow s with
    | Except.error e => Except.error e
    | Except.ok d =>
      match tvSearchShows rest with
      | Except.error e => Except.error e
      | Except.ok ds => Except.ok (d :: ds)

/-- `TVmaze.search(series)`: `_getetsrc` yields the one-key dict with "data"
holding the parsed upstream JSON (None when unparseable); `if not results:
return` would return None but never fires (the dict always has its one key);
`map_data(results.values())` then enumerates the upstream array — TypeError on
None — and the "series" list of normalized summaries is returned. -/
def tvSearch (upstream : Option (List PVal)) :
    Except PyErr (Option (List (List (String × PVal)))) :=
  let results : List (String × Option (List PVal)) := [("data", upstream)]
  if results.isEmpty then Except.ok Option.none
  else
    match upstream with
    | Option.none => Except.error PyErr.typeError
    | some shows =>
      match tvSearchShows shows with
      | Except.error e => Except.error e
      | Except.ok l => Except.ok (some l)

/-- Claim C8: when the upstream show search returns the empty result array,
`TVmaze.search` returns an empty sequence of candidate show summaries — not
an error and not the absent (None) value. -/
theorem c8_empty_search :
    tvSearch (some []) = Except.ok (some ([] : List (List (String × PVal)))) :=
  rfl

/- ## 6. By-id lookup orchestration (`TVmaze.__getitem__`, lines 1015-1023) -/

/-- The client state for the by-id lookup path: the ShowContainer `self.shows`
holding Show instances, the instances identified by an allocation tag (two
lookups return the identical Python object exactly when they return the same
tag), a fresh-tag counter, and a count of network fetches performed. The
network fetch and tree population done by `_getShowData` are abstracted to
allocating one fresh Show instance and counting one fetch; its insertion into
`self.shows` follows `ShowContainer.__setitem__` (`_setShowData` inserts a new
Show exactly when the id is absent). -/
structure TVmazeState where
  cache : ShowContainer Nat
  nextTag : Nat
  fetchCount : Nat

/-- `TVmaze.__getitem__` with an integer key at time `now`: if the show id is
not in `self.shows`, `_getShowData` fetches and inserts it; then
`self.shows[key]` is returned. -/
def tvGetItemById (now sid : Nat) (s : TVmazeState) : Except PyErr (Nat × TVmazeState) :=
  match dLookup s.cache.store sid with
  | some t => Except.ok (t, s)
  | Option.none =>
    match scSetItem now sid s.nextTag s.cache with
    | Except.error e => Except.error e
    | Except.ok cache1 =>
      let s1 : TVmazeState :=
        { cache := cache1, nextTag := s.nextTag + 1, fetchCount := s.fetchCount + 1 }
      match dLookup cache1.store sid with
      | some t => Except.ok (t, s1)
      | Option.none => Except.error PyErr.keyError

/-- Claim C6: from any client state within the cache-retention window (no
eviction sweep due at the lookup's insertion time), two successive lookups of
a show by id return the identical Show instance (the same tag, hence the same
object), and the second lookup leaves the state — in particular the network
fetch count — untouched, because the show is served from the cache. -/
theorem c6_cached_identity (s : TVmazeState) (sid now now2 : Nat)
    (h : now - s.cache.lastgc ≤ 20) :
    ∃ t s1, tvGetItemById now sid s = Except.ok (t, s1) ∧
      tvGetItemById now2 sid s1 = Except.ok (t, s1) := by
  cases hl : dLookup s.cache.store sid with
  | some t =>
    exact ⟨t, s, by simp [tvGetItemById, hl], by simp [tvGetItemById, hl]⟩
  | none =>
    have hns : ¬ (now - s.cache.lastgc > 20) := by omega
    refine ⟨s.nextTag,
      { cache := { stack := s.cache.stack ++ [sid], lastgc := s.cache.lastgc,
                   store := dSet s.cache.store sid s.nextTag },
        nextTag := s.nextTag + 1, fetchCount := s.fetchCount + 1 }, ?_, ?_⟩
    · simp [tvGetItemById, hl, scSetItem, hns, dLookup_dSet_self]
    · simp [tvGetItemById, dLookup_dSet_self]

/-- A fresh client state at time 0. -/
def c6s0 : TVmazeState := { cache := scInit 0, nextTag := 0, fetchCount := 0 }

/-- Witness for claim C6: a concrete pair of successive lookups of show id 7
from the fresh client state, the second 5 time-units later. -/
theorem c6_witness :
    ∃ t s1, tvGetItemById 0 7 c6s0 = Except.ok (t, s1) ∧
      tvGetItemById 5 7 s1 = Except.ok (t, s1) :=
  c6_cached_identity c6s0 7 0 5 (by decide)

end PyTVMaze
